import Mathlib

/-!
Verification of the Feature Style Resolver callbacks of the
Dashboard_Analysis_FinalProject_MBKM repository.

The repository ships two variants of one JavaScript file, each defining
three callbacks on `window.dashExtensions.default`:

* `src/assets/dashExtensions_default.js` — the "flat" variant, whose
  `function0` reads `feature.properties.fillColor` with the fallback
  `'#9ca3af'`;
* `src/unnamed/part_000` — the "cluster-color" variant, whose `function0`
  maps `feature.properties.cluster` through the lookup
  `0 ↦ '#1f77b4', 1 ↦ '#ff7f0e'` with the fallback `'#808080'`.

The embedding below models JavaScript property access with `Option`
(`none` is JS `undefined`), JS truthiness of string values (`none` and
the empty string are falsy), JS string coercion of `undefined` (the
literal text `undefined`), object literals as Lean structures whose
omitted fields are `none`, and the side effect of `layer.bindTooltip`
as the list of calls the invocation performs on the layer.
-/

/-- Per-feature property bag, as read by the callbacks.  Each key may be
absent (`none`, i.e. JS `undefined`). -/
structure Props where
  fillColor : Option String
  cluster : Option Int
  kabkot : Option String
  cluster_label : Option String
deriving DecidableEq

/-- A GeoJSON-like feature as the callbacks see it: a record exposing a
`properties` field. -/
structure Feature where
  properties : Props
deriving DecidableEq

/-- A style object.  Fields are `Option`s so that a field omitted from a
JS object literal is represented by `none`: presence of a field is
observable. -/
structure Style where
  color : Option String := none
  weight : Option ℚ := none
  fillColor : Option String := none
  fillOpacity : Option ℚ := none
deriving DecidableEq

/-- Options passed to `layer.bindTooltip`. -/
structure TooltipOptions where
  sticky : Bool
deriving DecidableEq

/-- One call to `layer.bindTooltip text options`. -/
structure TooltipCall where
  text : String
  options : TooltipOptions
deriving DecidableEq

/-- JS `v || d` restricted to string-or-undefined values: `undefined`
and the empty string are falsy, every other string is truthy. -/
def jsOrString (v : Option String) (d : String) : String :=
  match v with
  | none => d
  | some s => if s = "" then d else s

/-- JS string coercion applied by `+` to a string-or-undefined value:
`undefined` prints as the literal text `undefined`. -/
def jsToString (v : Option String) : String :=
  match v with
  | none => "undefined"
  | some s => s

/-- Feature-like object of the input contract: the `properties` field
itself may be missing, in which case reading a key of it throws. -/
structure FeatureLike where
  properties : Option Props
deriving DecidableEq

/-- The layer object of the input contract: it may or may not expose a
`bindTooltip` operation. -/
structure Layer where
  hasBindTooltip : Bool
deriving DecidableEq

/-- `true` iff an `Except` computation succeeded. -/
def exceptIsOk {ε α : Type} : Except ε α → Bool
  | Except.ok _ => true
  | Except.error _ => false

/-- Property bag with every key absent. -/
def emptyProps : Props :=
  { fillColor := none, cluster := none, kabkot := none, cluster_label := none }

namespace DashAssets

/-! The flat variant, `src/assets/dashExtensions_default.js`. -/

/-- `function0` (defaultStyle) of the flat variant: fixed stroke
`'#0f172a'`, weight 1, `fillColor` from the feature with fallback
`'#9ca3af'`, opacity 0.8. -/
def function0 {C : Type} (feature : Feature) (context : C) : Style :=
  { color := some "#0f172a"
    weight := some 1
    fillColor := some (jsOrString feature.properties.fillColor "#9ca3af")
    fillOpacity := some (0.8 : ℚ) }

/-- `function1` (highlightStyle) of the flat variant.  The source object
literal sets `weight`, `color` and `fillOpacity` only; `fillColor` is
omitted. -/
def function1 {C : Type} (feature : Feature) (context : C) : Style :=
  { weight := some 3
    color := some "#e5e7eb"
    fillOpacity := some (0.95 : ℚ) }

/-- `function2` (bindTooltip) of the flat variant, as the list of
`bindTooltip` calls it performs on the layer: exactly one, with the text
`kabkot + ' – ' + cluster_label` and the option sticky. -/
def function2 {C : Type} (feature : Feature) (context : C) : List TooltipCall :=
  let kabkot := feature.properties.kabkot
  let label := feature.properties.cluster_label
  [{ text := jsToString kabkot ++ " – " ++ jsToString label
     options := { sticky := true } }]

/-- `function0` evaluated against the input contract: reading
`feature.properties.fillColor` throws when `properties` is absent. -/
def function0Checked {C : Type} (f : FeatureLike) (context : C) :
    Except String Style :=
  match f.properties with
  | none => Except.error "TypeError: cannot read property of undefined"
  | some p => Except.ok (function0 ⟨p⟩ context)

/-- `function1` evaluated against the input contract: its body reads no
part of its arguments, so it cannot throw. -/
def function1Checked {C : Type} (f : FeatureLike) (context : C) :
    Except String Style :=
  Except.ok (function1 ⟨emptyProps⟩ context)

/-- `function2` evaluated against the input contract: it throws when
`properties` is absent or when the layer lacks `bindTooltip`. -/
def function2Checked {C : Type} (f : FeatureLike) (layer : Layer)
    (context : C) : Except String (List TooltipCall) :=
  match f.properties with
  | none => Except.error "TypeError: cannot read property of undefined"
  | some p =>
    if layer.hasBindTooltip then Except.ok (function2 ⟨p⟩ context)
    else Except.error "TypeError: layer.bindTooltip is not a function"

end DashAssets

namespace Part000

/-! The cluster-color variant, `src/unnamed/part_000`. -/

/-- The fixed color lookup `colors` of the cluster variant, as a JS
dictionary read: defined keys 0 and 1, every other key `undefined`. -/
def colors (cl : Option Int) : Option String :=
  if cl = some 0 then some "#1f77b4"
  else if cl = some 1 then some "#ff7f0e"
  else none

/-- `function0` (defaultStyle) of the cluster variant: white stroke,
weight 1, `fillColor` from `colors[cluster]` with fallback `'#808080'`,
opacity 0.7. -/
def function0 {C : Type} (feature : Feature) (context : C) : Style :=
  let cl := feature.properties.cluster
  { color := some "#ffffff"
    weight := some 1
    fillColor := some (jsOrString (colors cl) "#808080")
    fillOpacity := some (0.7 : ℚ) }

/-- `function1` (highlightStyle) of the cluster variant.  The source
object literal sets `weight`, `color` and `fillOpacity` only;
`fillColor` is omitted. -/
def function1 {C : Type} (feature : Feature) (context : C) : Style :=
  { weight := some 3
    color := some "#000000"
    fillOpacity := some (0.9 : ℚ) }

/-- `function2` (bindTooltip) of the cluster variant, as the list of
`bindTooltip` calls it performs on the layer. -/
def function2 {C : Type} (feature : Feature) (context : C) : List TooltipCall :=
  let kabkot := feature.properties.kabkot
  let label := feature.properties.cluster_label
  [{ text := jsToString kabkot ++ " – " ++ jsToString label
     options := { sticky := true } }]

/-- `function0` evaluated against the input contract. -/
def function0Checked {C : Type} (f : FeatureLike) (context : C) :
    Except String Style :=
  match f.properties with
  | none => Except.error "TypeError: cannot read property of undefined"
  | some p => Except.ok (function0 ⟨p⟩ context)

/-- `function1` evaluated against the input contract: its body reads no
part of its arguments, so it cannot throw. -/
def function1Checked {C : Type} (f : FeatureLike) (context : C) :
    Except String Style :=
  Except.ok (function1 ⟨emptyProps⟩ context)

/-- `function2` evaluated against the input contract. -/
def function2Checked {C : Type} (f : FeatureLike) (layer : Layer)
    (context : C) : Except String (List TooltipCall) :=
  match f.properties with
  | none => Except.error "TypeError: cannot read property of undefined"
  | some p =>
    if layer.hasBindTooltip then Except.ok (function2 ⟨p⟩ context)
    else Except.error "TypeError: layer.bindTooltip is not a function"

end Part000

/-- C1: for every feature whose properties contain `kabkot` and
`cluster_label`, `function2` of each variant calls `layer.bindTooltip`
exactly once, with text `kabkot + ' – ' + cluster_label` and the option
sticky. -/
theorem C1_bindTooltip_text {C : Type} (ctx : C) (f : Feature)
    (k l : String)
    (hk : f.properties.kabkot = some k)
    (hl : f.properties.cluster_label = some l) :
    DashAssets.function2 f ctx =
      [{ text := k ++ " – " ++ l, options := { sticky := true } }] ∧
    Part000.function2 f ctx =
      [{ text := k ++ " – " ++ l, options := { sticky := true } }] := by
  constructor <;> simp [DashAssets.function2, Part000.function2, hk, hl, jsToString]

/-- Witness for C1 at the spec's example feature. -/
theorem C1_bindTooltip_text_witness :
    DashAssets.function2
        ⟨{ fillColor := none, cluster := none,
           kabkot := some "Kota A", cluster_label := some "Cluster 1" }⟩ () =
      [{ text := "Kota A – Cluster 1", options := { sticky := true } }] ∧
    Part000.function2
        ⟨{ fillColor := none, cluster := none,
           kabkot := some "Kota A", cluster_label := some "Cluster 1" }⟩ () =
      [{ text := "Kota A – Cluster 1", options := { sticky := true } }] :=
  C1_bindTooltip_text () _ "Kota A" "Cluster 1" rfl rfl

/-- Feature whose `fillColor` is present but is the empty string. -/
def featEmptyFill : Feature :=
  ⟨{ fillColor := some "", cluster := none, kabkot := none,
     cluster_label := none }⟩

/-- Feature whose `fillColor` is the non-empty string `'#ff0000'`. -/
def featRedFill : Feature :=
  ⟨{ fillColor := some "#ff0000", cluster := none, kabkot := none,
     cluster_label := none }⟩

/-- C2 counterexample: a feature whose properties include the
`fillColor` value `""` (the empty string) does not get that value back
from `function0`; the truthiness fallback replaces it. -/
theorem C2_counterexample :
    featEmptyFill.properties.fillColor = some "" ∧
    (DashAssets.function0 featEmptyFill ()).fillColor ≠
      featEmptyFill.properties.fillColor := by
  refine ⟨rfl, ?_⟩
  decide

/-- C2 amended: for every feature whose properties include a non-empty
(truthy) `fillColor` string, `function0` of the flat variant returns a
style whose `fillColor` equals that value. -/
theorem C2_fillColor_passthrough {C : Type} (ctx : C) (f : Feature)
    (s : String)
    (hs : f.properties.fillColor = some s) (hne : s ≠ "") :
    (DashAssets.function0 f ctx).fillColor = some s := by
  simp [DashAssets.function0, jsOrString, hs, hne]

/-- Witness for C2 (amended) at a concrete non-empty color. -/
theorem C2_fillColor_passthrough_witness :
    (featRedFill.properties.fillColor = some "#ff0000" ∧
      "#ff0000" ≠ "") ∧
    (DashAssets.function0 featRedFill ()).fillColor = some "#ff0000" :=
  ⟨⟨rfl, by decide⟩,
    C2_fillColor_passthrough () featRedFill "#ff0000" rfl (by decide)⟩

/-- C3: for every feature whose properties lack `fillColor`, `function0`
of the flat variant returns the fallback fill color `'#9ca3af'`. -/
theorem C3_fillColor_fallback {C : Type} (ctx : C) (f : Feature)
    (h : f.properties.fillColor = none) :
    (DashAssets.function0 f ctx).fillColor = some "#9ca3af" := by
  simp [DashAssets.function0, jsOrString, h]

/-- Witness for C3 at the all-absent feature. -/
theorem C3_fillColor_fallback_witness :
    (Feature.mk emptyProps).properties.fillColor = none ∧
    (DashAssets.function0 (Feature.mk emptyProps) ()).fillColor =
      some "#9ca3af" :=
  ⟨rfl, C3_fillColor_fallback () (Feature.mk emptyProps) rfl⟩

/-- C4 counterexample: `function1` (highlightStyle) of each variant
returns a style with no `fillColor` field, so not every style object
returned by the style operations has all four fields present. -/
theorem C4_counterexample :
    (DashAssets.function1 (Feature.mk emptyProps) ()).fillColor = none ∧
    (Part000.function1 (Feature.mk emptyProps) ()).fillColor = none :=
  ⟨rfl, rfl⟩

/-- C4 amended: every style returned by `function0` (defaultStyle, both
variants) has all four fields `color`, `weight`, `fillColor`,
`fillOpacity` present; every style returned by `function1`
(highlightStyle, both variants) has `color`, `weight` and `fillOpacity`
present but omits `fillColor`. -/
theorem C4_style_fields {C : Type} (ctx : C) (f : Feature) :
    ((DashAssets.function0 f ctx).color.isSome = true ∧
      (DashAssets.function0 f ctx).weight.isSome = true ∧
      (DashAssets.function0 f ctx).fillColor.isSome = true ∧
      (DashAssets.function0 f ctx).fillOpacity.isSome = true) ∧
    ((Part000.function0 f ctx).color.isSome = true ∧
      (Part000.function0 f ctx).weight.isSome = true ∧
      (Part000.function0 f ctx).fillColor.isSome = true ∧
      (Part000.function0 f ctx).fillOpacity.isSome = true) ∧
    ((DashAssets.function1 f ctx).color.isSome = true ∧
      (DashAssets.function1 f ctx).weight.isSome = true ∧
      (DashAssets.function1 f ctx).fillOpacity.isSome = true ∧
      (DashAssets.function1 f ctx).fillColor = none) ∧
    ((Part000.function1 f ctx).color.isSome = true ∧
      (Part000.function1 f ctx).weight.isSome = true ∧
      (Part000.function1 f ctx).fillOpacity.isSome = true ∧
      (Part000.function1 f ctx).fillColor = none) := by
  refine ⟨⟨rfl, rfl, rfl, rfl⟩, ⟨rfl, rfl, rfl, rfl⟩,
    ⟨rfl, rfl, rfl, rfl⟩, ⟨rfl, rfl, rfl, rfl⟩⟩

/-- C5: `function1` (highlightStyle) of each variant returns the same
constant style for every pair of features and every pair of context
values of any types. -/
theorem C5_highlight_constant {C₁ C₂ : Type} (c₁ : C₁) (c₂ : C₂)
    (f₁ f₂ : Feature) :
    DashAssets.function1 f₁ c₁ = DashAssets.function1 f₂ c₂ ∧
    Part000.function1 f₁ c₁ = Part000.function1 f₂ c₂ :=
  ⟨rfl, rfl⟩

/-- Feature with cluster 1. -/
def featCluster1 : Feature :=
  ⟨{ fillColor := none, cluster := some 1, kabkot := none,
     cluster_label := none }⟩

/-- Feature with cluster 5. -/
def featCluster5 : Feature :=
  ⟨{ fillColor := none, cluster := some 5, kabkot := none,
     cluster_label := none }⟩

/-- C6: in the cluster-color variant, `function0` maps the cluster value
through the fixed lookup (0 to `'#1f77b4'`, 1 to `'#ff7f0e'`) and falls
back to `'#808080'` for every other value; in particular cluster 1 gives
`'#ff7f0e'` and cluster 5 gives `'#808080'`. -/
theorem C6_cluster_lookup {C : Type} (ctx : C) (f : Feature) :
    ((Part000.function0 f ctx).fillColor =
      some (if f.properties.cluster = some 0 then "#1f77b4"
            else if f.properties.cluster = some 1 then "#ff7f0e"
            else "#808080")) ∧
    (Part000.function0 featCluster1 ()).fillColor = some "#ff7f0e" ∧
    (Part000.function0 featCluster5 ()).fillColor = some "#808080" := by
  refine ⟨?_, by decide, by decide⟩
  by_cases h0 : f.properties.cluster = some 0
  · simp [Part000.function0, Part000.colors, jsOrString, h0]
  · by_cases h1 : f.properties.cluster = some 1
    · simp [Part000.function0, Part000.colors, jsOrString, h0, h1]
    · simp [Part000.function0, Part000.colors, jsOrString, h0, h1]

/-- Concatenation of strings is associative (helper for the tooltip
text decomposition). -/
theorem strAppend_assoc (a b c : String) : a ++ b ++ c = a ++ (b ++ c) := by
  rcases a with ⟨a⟩; rcases b with ⟨b⟩; rcases c with ⟨c⟩
  show String.mk (a ++ b ++ c) = String.mk (a ++ (b ++ c))
  rw [List.append_assoc]

/-- C7: for every feature missing `kabkot` or `cluster_label`,
`function2` of each variant still binds exactly one sticky tooltip, and
its text contains the literal text `undefined` in place of the missing
property. -/
theorem C7_tooltip_undefined {C : Type} (ctx : C) (f : Feature)
    (h : f.properties.kabkot = none ∨ f.properties.cluster_label = none) :
    ∃ t, DashAssets.function2 f ctx =
        [{ text := t, options := { sticky := true } }] ∧
      Part000.function2 f ctx =
        [{ text := t, options := { sticky := true } }] ∧
      ∃ pre post, t = pre ++ "undefined" ++ post := by
  refine ⟨jsToString f.properties.kabkot ++ " – " ++
    jsToString f.properties.cluster_label, rfl, rfl, ?_⟩
  rcases h with h | h
  · refine ⟨"", " – " ++ jsToString f.properties.cluster_label, ?_⟩
    rw [h]
    conv_rhs => rw [← strAppend_assoc]
    rfl
  · refine ⟨jsToString f.properties.kabkot ++ " – ", "", ?_⟩
    rw [h]
    simp [jsToString, String.append_empty]

/-- Feature with `kabkot` absent and only a cluster label present. -/
def featNoKabkot : Feature :=
  ⟨{ fillColor := none, cluster := none, kabkot := none,
     cluster_label := some "Cluster 2" }⟩

/-- Witness for C7 at a feature missing `kabkot`. -/
theorem C7_tooltip_undefined_witness :
    (featNoKabkot.properties.kabkot = none ∨
      featNoKabkot.properties.cluster_label = none) ∧
    (∃ t, DashAssets.function2 featNoKabkot () =
        [{ text := t, options := { sticky := true } }] ∧
      Part000.function2 featNoKabkot () =
        [{ text := t, options := { sticky := true } }] ∧
      ∃ pre post, t = pre ++ "undefined" ++ post) :=
  ⟨Or.inl rfl, C7_tooltip_undefined () featNoKabkot (Or.inl rfl)⟩

/-- C8: under the input contract (the argument exposes a `properties`
field and the layer exposes `bindTooltip`), no operation of either
variant throws, for every combination of present or absent property
keys. -/
theorem C8_no_exception {C : Type} (ctx : C) (fl : FeatureLike)
    (layer : Layer)
    (hp : fl.properties.isSome = true)
    (hb : layer.hasBindTooltip = true) :
    exceptIsOk (DashAssets.function0Checked fl ctx) = true ∧
    exceptIsOk (DashAssets.function1Checked fl ctx) = true ∧
    exceptIsOk (DashAssets.function2Checked fl layer ctx) = true ∧
    exceptIsOk (Part000.function0Checked fl ctx) = true ∧
    exceptIsOk (Part000.function1Checked fl ctx) = true ∧
    exceptIsOk (Part000.function2Checked fl layer ctx) = true := by
  rcases fl with ⟨p⟩
  rcases p with _ | p
  · simp at hp
  · simp [DashAssets.function0Checked, DashAssets.function1Checked,
      DashAssets.function2Checked, Part000.function0Checked,
      Part000.function1Checked, Part000.function2Checked, exceptIsOk, hb]

/-- Witness for C8 at the all-absent property bag and a conforming
layer. -/
theorem C8_no_exception_witness :
    ((FeatureLike.mk (some emptyProps)).properties.isSome = true ∧
      (Layer.mk true).hasBindTooltip = true) ∧
    (exceptIsOk (DashAssets.function0Checked
        (FeatureLike.mk (some emptyProps)) ()) = true ∧
      exceptIsOk (DashAssets.function1Checked
        (FeatureLike.mk (some emptyProps)) ()) = true ∧
      exceptIsOk (DashAssets.function2Checked
        (FeatureLike.mk (some emptyProps)) (Layer.mk true) ()) = true ∧
      exceptIsOk (Part000.function0Checked
        (FeatureLike.mk (some emptyProps)) ()) = true ∧
      exceptIsOk (Part000.function1Checked
        (FeatureLike.mk (some emptyProps)) ()) = true ∧
      exceptIsOk (Part000.function2Checked
        (FeatureLike.mk (some emptyProps)) (Layer.mk true) ()) = true) :=
  ⟨⟨rfl, rfl⟩,
    C8_no_exception () (FeatureLike.mk (some emptyProps)) (Layer.mk true)
      rfl rfl⟩

/-- C9: in the flat variant, a feature whose `fillColor` is present but
falsy (the empty string) is treated as if `fillColor` were absent:
`function0` returns the fallback `'#9ca3af'`. -/
theorem C9_falsy_fillColor {C : Type} (ctx : C) (f : Feature)
    (h : f.properties.fillColor = some "") :
    (DashAssets.function0 f ctx).fillColor = some "#9ca3af" := by
  simp [DashAssets.function0, jsOrString, h]

/-- Witness for C9 at the empty-string fill color. -/
theorem C9_falsy_fillColor_witness :
    featEmptyFill.properties.fillColor = some "" ∧
    (DashAssets.function0 featEmptyFill ()).fillColor = some "#9ca3af" :=
  ⟨rfl, C9_falsy_fillColor () featEmptyFill rfl⟩

/-- C10: the `function2` operations of the two variants are
extensionally equal: for every feature and context they perform the same
single `bindTooltip` call, with identical text and identical options. -/
theorem C10_function2_equal {C : Type} (ctx : C) (f : Feature) :
    DashAssets.function2 f ctx = Part000.function2 f ctx :=
  rfl
